import Mathlib

/- Verification development for the DriveSafe UK backend (src/backend/server.py).

Modelling choices:
* Timestamps are exact rationals counting seconds (Python datetimes have
  microsecond resolution; `timedelta(minutes=m)` is `m * 60` seconds and
  `total_seconds` is exact on them).
* Coordinates and distances in the report-lifecycle engine and the proximity
  queries are rationals, and the great-circle primitive `haversine_distance`
  enters those pipelines only through comparisons against thresholds, so the
  pipelines are stated generically in a distance function `dist`; every
  theorem about them holds for every `dist`, in particular for the haversine.
* The geometric claims about `haversine_distance` and `get_bounding_box`
  themselves are stated over the reals, with `math.radians`, `math.atan2`,
  `math.sin`, `math.cos`, `math.sqrt` mapped to their exact real counterparts.
* The Mongo collection `db.reports` is a list of records in enumeration
  order; `insert_one` appends, `find_one`/`find` enumerate in list order,
  `to_list(n)` truncates to the first `n` matches, and
  `update_one(filter, inc)` increments the first matching record.
-/

namespace DriveSafe

/- ## Python numeric primitives -/

/-- Python `int(x)`: truncation toward zero (floor for nonnegative values,
ceiling for negative ones). -/
def pyTrunc (q : ℚ) : ℤ := if 0 ≤ q then ⌊q⌋ else ⌈q⌉

/-- Python `round(x)` to an integer: round half to even. -/
def pyRound (q : ℚ) : ℤ :=
  let f := ⌊q⌋
  let r := q - (f : ℚ)
  if r < 1/2 then f
  else if 1/2 < r then f + 1
  else if f % 2 = 0 then f else f + 1

/- ## Data model (server.py, Models section) -/

/-- `AppSettings` (server.py lines 84-90) with its field defaults. -/
structure AppSettings where
  mobile_camera_ttl_minutes : ℤ := 75
  police_check_ttl_minutes : ℤ := 52
  duplicate_radius_meters : ℤ := 200
  duplicate_time_window_minutes : ℤ := 15
  rate_limit_minutes : ℤ := 5
deriving DecidableEq

/-- `CommunityReport` (server.py lines 58-67), as stored in `db.reports`. -/
structure CommunityReport where
  id : String
  latitude : ℚ
  longitude : ℚ
  report_type : String
  user_id : String
  confirmations : ℤ
  created_at : ℚ
  expires_at : ℚ
  is_active : Bool
deriving DecidableEq

/-- `CommunityReportCreate` (server.py lines 69-73): the request payload.
The pydantic model declares bare `float`/`str` fields with no validators,
so any rational coordinates and any strings type-check. -/
structure CommunityReportCreate where
  latitude : ℚ
  longitude : ℚ
  report_type : String
  user_id : String
deriving DecidableEq

/-- `ReportResponse` (server.py lines 75-78). -/
structure ReportResponse where
  success : Bool
  message : String
  report_id : Option String
deriving DecidableEq

/-- `SpeedCamera` (server.py lines 37-48), as stored in `db.cameras`. -/
structure SpeedCamera where
  id : String
  latitude : ℚ
  longitude : ℚ
  camera_type : String
  road_name : Option String
  speed_limit : Option ℤ
  direction : Option String
  confidence : ℤ
  last_verified : ℚ
  is_active : Bool
  created_at : ℚ
deriving DecidableEq

/-- A distance primitive: the shape of `haversine_distance` as consumed by
the engine and the queries (arguments `lat1 lon1 lat2 lon2`, result in
meters). -/
abbrev Dist : Type := ℚ → ℚ → ℚ → ℚ → ℚ

/- ## Report lifecycle engine (server.py, create_report, lines 183-245) -/

/-- The rate-limit lookup filter (the `db.reports.find_one` query of
server.py lines 190-194): same submitter, same report type, created within
the last `rate_limit_minutes`. -/
def rateLimitFilter (report : CommunityReportCreate) (s : AppSettings) (now : ℚ)
    (r : CommunityReport) : Bool :=
  r.user_id == report.user_id && r.report_type == report.report_type &&
    decide (now - (s.rate_limit_minutes : ℚ) * 60 ≤ r.created_at)

/-- The duplicate-candidate filter (the `db.reports.find` query of
server.py lines 204-209): same report type, active, non-expired, created
within the last `duplicate_time_window_minutes`. -/
def dupFilter (report : CommunityReportCreate) (s : AppSettings) (now : ℚ)
    (r : CommunityReport) : Bool :=
  r.report_type == report.report_type && r.is_active &&
    decide (now < r.expires_at) &&
    decide (now - (s.duplicate_time_window_minutes : ℚ) * 60 ≤ r.created_at)

/-- The per-candidate distance test of the merge loop (server.py
lines 211-216). -/
def withinDupRadius (dist : Dist) (report : CommunityReportCreate)
    (s : AppSettings) (r : CommunityReport) : Bool :=
  decide (dist report.latitude report.longitude r.latitude r.longitude ≤
    (s.duplicate_radius_meters : ℚ))

/-- Mongo `update_one({'id': i}, {'$inc': {'confirmations': 1}})`
(server.py lines 218-221): increments `confirmations` of the first record
whose `id` matches. -/
def incConfirmations (i : String) : List CommunityReport → List CommunityReport
  | [] => []
  | r :: rs =>
    if r.id == i then { r with confirmations := r.confirmations + 1 } :: rs
    else r :: incConfirmations i rs

/-- Python `str.replace` for a one-character pattern and a one-character
replacement, which is the shape of the only call in the source
(`report.report_type.replace('_', ' ')`, server.py line 200): every
occurrence of the character is replaced. -/
def pyReplaceChar (pat rep : Char) (s : String) : String :=
  String.mk (s.data.map (fun c => if c = pat then rep else c))

/-- The f-string of server.py line 200, including the
`replace('_', ' ')` on the report type. -/
def waitMessage (wait : ℤ) (report_type : String) : String :=
  "Please wait " ++ toString wait ++ " more minutes before reporting another "
    ++ pyReplaceChar ('_') (' ') report_type

/-- The f-string of server.py line 224. -/
def confirmMessage (n : ℤ) : String :=
  "Confirmed! " ++ toString n ++ " users have reported this."

/-- The message of server.py line 243. -/
def newReportMessage : String := "Reported. Thanks!"

/-- The `CommunityReport` object built on server.py lines 235-238:
field defaults give `confirmations = 1` and `is_active = True`;
`expires_at = now + timedelta(minutes=ttl)`. -/
def newReport (report : CommunityReportCreate) (newId : String) (now : ℚ)
    (ttl : ℤ) : CommunityReport :=
  ⟨newId, report.latitude, report.longitude, report.report_type,
    report.user_id, 1, now, now + (ttl : ℚ) * 60, true⟩

/-- `create_report` (server.py lines 183-245): rate-limit check, then
duplicate merge over the first 100 candidates (`to_list(100)`), then
TTL assignment and insertion.  Returns the HTTP response together with the
resulting `db.reports` contents.  `newId` stands for the fresh `uuid4`. -/
def create_report (dist : Dist) (s : AppSettings) (now : ℚ) (newId : String)
    (db : List CommunityReport) (report : CommunityReportCreate) :
    ReportResponse × List CommunityReport :=
  match db.find? (rateLimitFilter report s now) with
  | some recent =>
    (⟨false,
      waitMessage (s.rate_limit_minutes - pyTrunc ((now - recent.created_at) / 60))
        report.report_type, none⟩, db)
  | none =>
    let existing_reports := (db.filter (dupFilter report s now)).take 100
    match existing_reports.find? (withinDupRadius dist report s) with
    | some existing =>
      (⟨true, confirmMessage (existing.confirmations + 1), some existing.id⟩,
        incConfirmations existing.id db)
    | none =>
      let ttl : ℤ :=
        if report.report_type == "mobile_camera" then s.mobile_camera_ttl_minutes
        else s.police_check_ttl_minutes
      (⟨true, newReportMessage, some newId⟩,
        db ++ [newReport report newId now ttl])

/- ## Proximity queries (server.py, get_nearby_cameras / get_nearby_reports) -/

/-- The rectangle returned by `get_bounding_box`, as consumed by the Mongo
range query.  The query pipelines are stated for an arbitrary box (the box
only pre-filters; all claims about the pipelines hold for every box). -/
structure QueryBox where
  min_lat : ℚ
  max_lat : ℚ
  min_lon : ℚ
  max_lon : ℚ
deriving DecidableEq

/-- The Mongo `$gte`/`$lte` coordinate range filter of the nearby queries. -/
def inQueryBox (b : QueryBox) (lat lon : ℚ) : Bool :=
  decide (b.min_lat ≤ lat) && decide (lat ≤ b.max_lat) &&
    decide (b.min_lon ≤ lon) && decide (lon ≤ b.max_lon)

/-- An element of the `get_nearby_cameras` result: the camera document with
the added `distance_meters` annotation (server.py line 160). -/
structure CameraResult where
  camera : SpeedCamera
  distance_meters : ℤ
deriving DecidableEq

/-- An element of the `get_nearby_reports` result: the report document with
the added `distance_meters` and `expires_in_minutes` annotations
(server.py lines 269-272). -/
structure ReportResult where
  report : CommunityReport
  distance_meters : ℤ
  expires_in_minutes : ℤ
deriving DecidableEq

/-- `get_nearby_cameras` (server.py lines 139-165): box pre-filter plus
active flag (`to_list(1000)`), exact distance filter against
`radius_km * 1000`, annotation with `round(distance)`, ascending sort by
the annotated distance. -/
def get_nearby_cameras (dist : Dist) (bbox : QueryBox) (lat lon radius_km : ℚ)
    (db : List SpeedCamera) : List CameraResult :=
  let cameras :=
    (db.filter (fun c => inQueryBox bbox c.latitude c.longitude && c.is_active)).take 1000
  let result := cameras.filterMap (fun c =>
    let d := dist lat lon c.latitude c.longitude
    if d ≤ radius_km * 1000 then some ⟨c, pyRound d⟩ else none)
  result.mergeSort (fun a b => decide (a.distance_meters ≤ b.distance_meters))

/-- `get_nearby_reports` (server.py lines 247-276): box pre-filter plus
active flag plus `expires_at > now` (`to_list(500)`), exact distance filter,
annotation with `round(distance)` and the remaining minutes
`round((expires_at - now) / 60)`, ascending sort by annotated distance. -/
def get_nearby_reports (dist : Dist) (bbox : QueryBox) (lat lon radius_km : ℚ)
    (now : ℚ) (db : List CommunityReport) : List ReportResult :=
  let reports :=
    (db.filter (fun r => inQueryBox bbox r.latitude r.longitude && r.is_active &&
      decide (now < r.expires_at))).take 500
  let result := reports.filterMap (fun r =>
    let d := dist lat lon r.latitude r.longitude
    if d ≤ radius_km * 1000 then
      some ⟨r, pyRound d, pyRound ((r.expires_at - now) / 60)⟩
    else none)
  result.mergeSort (fun a b => decide (a.distance_meters ≤ b.distance_meters))

/- ## Geo math over the reals (server.py, haversine_distance / get_bounding_box) -/

section GeoReal

open Classical

/-- `math.radians` : degrees to radians. -/
noncomputable def radians (x : ℝ) : ℝ := x * Real.pi / 180

/-- `math.atan2 y x`: the two-argument arctangent with the usual C/Python
library semantics (the zero-zero corner returns 0; signed zeros do not
exist in the real model). -/
noncomputable def atan2 (y x : ℝ) : ℝ :=
  if 0 < x then Real.arctan (y / x)
  else if x < 0 ∧ 0 ≤ y then Real.arctan (y / x) + Real.pi
  else if x < 0 ∧ y < 0 then Real.arctan (y / x) - Real.pi
  else if x = 0 ∧ 0 < y then Real.pi / 2
  else if x = 0 ∧ y < 0 then -(Real.pi / 2)
  else 0

/-- `haversine_distance` (server.py lines 94-106): great-circle distance in
meters with mean Earth radius 6371000 m. -/
noncomputable def haversine_distance (lat1 lon1 lat2 lon2 : ℝ) : ℝ :=
  let R : ℝ := 6371000
  let phi1 := radians lat1
  let phi2 := radians lat2
  let delta_phi := radians (lat2 - lat1)
  let delta_lambda := radians (lon2 - lon1)
  let a := Real.sin (delta_phi / 2) ^ 2 +
    Real.cos phi1 * Real.cos phi2 * Real.sin (delta_lambda / 2) ^ 2
  let c := 2 * atan2 (Real.sqrt a) (Real.sqrt (1 - a))
  R * c

/-- The rectangle produced by `get_bounding_box`. -/
structure GeoBox where
  min_lat : ℝ
  max_lat : ℝ
  min_lon : ℝ
  max_lon : ℝ

/-- `get_bounding_box` (server.py lines 108-119). -/
noncomputable def get_bounding_box (lat lon radius_km : ℝ) : GeoBox :=
  let lat_delta := radius_km / 111.0
  let lon_delta := radius_km / (111.0 * Real.cos (radians lat))
  ⟨lat - lat_delta, lat + lat_delta, lon - lon_delta, lon + lon_delta⟩

/-- Membership in a `get_bounding_box` rectangle, as the Mongo range query
reads it. -/
def inGeoBox (b : GeoBox) (lat lon : ℝ) : Prop :=
  b.min_lat ≤ lat ∧ lat ≤ b.max_lat ∧ b.min_lon ≤ lon ∧ lon ≤ b.max_lon

end GeoReal

/- ## Concrete instances used by witnesses and counterexamples -/

/-- A constant distance function. -/
def constDist (c : ℚ) : Dist := fun _ _ _ _ => c

/-- A distance function that returns the candidate's latitude; convenient
for building databases whose candidates sit at chosen distances. -/
def latDist : Dist := fun _ _ lb _ => lb

/-- A bounding box wide enough to keep the pre-filter from interfering. -/
def wideBox : QueryBox := ⟨-1000, 1000, -1000, 1000⟩

/-- A prior report by user `u`, created at time 0. -/
def rlPrior : CommunityReport :=
  ⟨"r0", 0, 0, "mobile_camera", "u", 1, 0, 10000, true⟩

/-- A mobile-camera payload from user `u`. -/
def rlPayload : CommunityReportCreate := ⟨0, 0, "mobile_camera", "u"⟩

/-- A duplicate candidate sitting far away (latitude 1000, so `latDist`
reports 1000 m). -/
def farRep : CommunityReport := ⟨"f", 1000, 0, "police_check", "v", 1, 0, 100, true⟩

/-- A duplicate candidate at the payload's own location (`latDist`
reports 0 m). -/
def nearRep : CommunityReport := ⟨"g", 0, 0, "police_check", "w", 1, 0, 100, true⟩

/-- A database with 100 far candidates ahead of one within-radius
candidate: the within-radius candidate is beyond the `to_list(100)` cap. -/
def capDb : List CommunityReport := List.replicate 100 farRep ++ [nearRep]

/-- A police-check payload from user `u`. -/
def dupPayload : CommunityReportCreate := ⟨0, 0, "police_check", "u"⟩

/-- A nearby mergeable report by another user with 3 confirmations. -/
def mergePrior : CommunityReport := ⟨"m", 0, 0, "police_check", "v", 3, 0, 100, true⟩

/-- A payload with an out-of-range coordinate and an unknown report type. -/
def badPayload : CommunityReportCreate := ⟨999, 999, "banana", "u"⟩

/-- Two distinct cameras at the same coordinate. -/
def camA : SpeedCamera := ⟨"a", 3, 4, "fixed", none, none, none, 100, 0, true, 0⟩

/-- Two distinct cameras at the same coordinate. -/
def camB : SpeedCamera := ⟨"b", 3, 4, "fixed", none, none, none, 100, 0, true, 0⟩

/-- An unexpired report (expires at 120) for query witnesses. -/
def qrep : CommunityReport := ⟨"q", 0, 0, "mobile_camera", "u", 1, 0, 120, true⟩

/-- An expired (at `now = 200`) but still active and stored report. -/
def expiredRep : CommunityReport := ⟨"e", 0, 0, "mobile_camera", "u", 1, 0, 100, true⟩

/-- A report still unexpired at `now = 200` (expires at 500). -/
def freshRep : CommunityReport := ⟨"fr", 0, 0, "mobile_camera", "u2", 1, 0, 500, true⟩

/- ## Helper lemmas -/

theorem pyRound_eq_floor {q : ℚ} (h : q - (⌊q⌋ : ℚ) < 1/2) : pyRound q = ⌊q⌋ := by
  simp only [pyRound]
  rw [if_pos h]

theorem pyRound_eq_ceil {q : ℚ} (h : 1/2 < q - (⌊q⌋ : ℚ)) : pyRound q = ⌊q⌋ + 1 := by
  simp only [pyRound]
  rw [if_neg (by linarith), if_pos h]

theorem pyRound_half_even {q : ℚ} (h : q - (⌊q⌋ : ℚ) = 1/2) (he : ⌊q⌋ % 2 = 0) :
    pyRound q = ⌊q⌋ := by
  simp only [pyRound]
  rw [if_neg (by rw [h]; norm_num), if_neg (by rw [h]; norm_num), if_pos he]

theorem pyTrunc_of_nonneg {q : ℚ} (h : 0 ≤ q) : pyTrunc q = ⌊q⌋ := by
  simp only [pyTrunc, if_pos h]

/-- The rate-limit branch of `create_report` (server.py lines 196-201). -/
theorem create_report_rate_limited (dist : Dist) (s : AppSettings) (now : ℚ)
    (newId : String) (db : List CommunityReport) (report : CommunityReportCreate)
    (recent : CommunityReport)
    (h : db.find? (rateLimitFilter report s now) = some recent) :
    create_report dist s now newId db report =
      (⟨false,
        waitMessage (s.rate_limit_minutes - pyTrunc ((now - recent.created_at) / 60))
          report.report_type, none⟩, db) := by
  simp only [create_report, h]

/-- The merge branch of `create_report` (server.py lines 211-226). -/
theorem create_report_merged (dist : Dist) (s : AppSettings) (now : ℚ)
    (newId : String) (db : List CommunityReport) (report : CommunityReportCreate)
    (existing : CommunityReport)
    (h1 : db.find? (rateLimitFilter report s now) = none)
    (h2 : ((db.filter (dupFilter report s now)).take 100).find?
      (withinDupRadius dist report s) = some existing) :
    create_report dist s now newId db report =
      (⟨true, confirmMessage (existing.confirmations + 1), some existing.id⟩,
        incConfirmations existing.id db) := by
  simp only [create_report, h1, h2]

/-- The insert branch of `create_report` (server.py lines 228-245). -/
theorem create_report_inserted (dist : Dist) (s : AppSettings) (now : ℚ)
    (newId : String) (db : List CommunityReport) (report : CommunityReportCreate)
    (h1 : db.find? (rateLimitFilter report s now) = none)
    (h2 : ((db.filter (dupFilter report s now)).take 100).find?
      (withinDupRadius dist report s) = none) :
    create_report dist s now newId db report =
      (⟨true, newReportMessage, some newId⟩,
        db ++ [newReport report newId now
          (if report.report_type == "mobile_camera" then s.mobile_camera_ttl_minutes
           else s.police_check_ttl_minutes)]) := by
  simp only [create_report, h1, h2]

/-- Under unique ids, Mongo's first-match increment is a pointwise map. -/
theorem incConfirmations_eq_map (i : String) (db : List CommunityReport)
    (h : (db.map CommunityReport.id).Nodup) :
    incConfirmations i db = db.map (fun r =>
      if r.id = i then { r with confirmations := r.confirmations + 1 } else r) := by
  induction db with
  | nil => rfl
  | cons r rs ih =>
    rw [List.map_cons, List.nodup_cons] at h
    rw [List.map_cons]
    by_cases hr : r.id = i
    · rw [if_pos hr]
      simp only [incConfirmations, beq_iff_eq, if_pos hr]
      congr 1
      have hall : ∀ s ∈ rs,
          (if s.id = i then { s with confirmations := s.confirmations + 1 } else s) = s := by
        intro t ht
        rw [if_neg]
        intro e
        exact h.1 (by rw [hr, ← e]; exact List.mem_map_of_mem CommunityReport.id ht)
      rw [List.map_congr_left hall, List.map_id']
    · rw [if_neg hr]
      simp only [incConfirmations, beq_iff_eq, if_neg hr]
      rw [ih h.2]

/-- Sorting with `mergeSort` on a decidable integer key yields a list that
is pairwise nondecreasing in that key. -/
theorem pairwise_mergeSort_le {α : Type} (key : α → ℤ) (l : List α) :
    List.Pairwise (fun a b => key a ≤ key b)
      (l.mergeSort (fun a b => decide (key a ≤ key b))) := by
  have hs := List.sorted_mergeSort
    (fun a b c (h1 : decide (key a ≤ key b) = true)
        (h2 : decide (key b ≤ key c) = true) => by
      simp only [decide_eq_true_eq] at h1 h2 ⊢
      exact le_trans h1 h2)
    (fun a b => by
      simp only [Bool.or_eq_true, decide_eq_true_eq]
      exact le_total _ _)
    l
  exact hs.imp (fun h => by simpa using h)

/- ## Claims -/

/-- C2: when the submitter has a prior report of the same report type
created within the last `rate_limit_minutes` (per current settings) — i.e.
the rate-limit lookup finds a record — the call returns `accepted = false`
with wait time `rate_limit_minutes − elapsed whole minutes`, the elapsed
minutes truncated (not rounded) from that prior report's creation time to
`now`, and the stored reports are unchanged (no insert, no increment). -/
theorem C2_rate_limit_rejects (dist : Dist) (s : AppSettings) (now : ℚ)
    (newId : String) (db : List CommunityReport) (report : CommunityReportCreate)
    (recent : CommunityReport)
    (h : db.find? (rateLimitFilter report s now) = some recent) :
    create_report dist s now newId db report =
      (⟨false,
        waitMessage (s.rate_limit_minutes - pyTrunc ((now - recent.created_at) / 60))
          report.report_type, none⟩, db) :=
  create_report_rate_limited dist s now newId db report recent h

/-- Witness for C2: user `u` reported at time 0 and reports again at time
120 s (2 min elapsed); with the default 5-minute limit the call is rejected
with a 3-minute wait and the database is unchanged. -/
theorem C2_rate_limit_rejects_witness :
    [rlPrior].find? (rateLimitFilter rlPayload {} 120) = some rlPrior ∧
    create_report (constDist 0) {} 120 ("n") [rlPrior] rlPayload =
      (⟨false, waitMessage 3 ("mobile_camera"), none⟩, [rlPrior]) := by
  have hf : [rlPrior].find? (rateLimitFilter rlPayload {} 120) = some rlPrior := by
    norm_num [rateLimitFilter, rlPrior, rlPayload, List.find?_cons]
  refine ⟨hf, ?_⟩
  have h := C2_rate_limit_rejects (constDist 0) {} 120 ("n") [rlPrior] rlPayload rlPrior hf
  rw [h]
  have ht : pyTrunc ((2 : ℚ)) = 2 := by
    rw [pyTrunc_of_nonneg (by norm_num)]; norm_num
  norm_num [rlPrior, rlPayload, ht]

/-- C3: a call that is neither rate-limited nor merged into a duplicate
persists a new record with `confirmations = 1` and
`expires_at = now + TTL`, where the TTL comes from the settings in force:
`mobile_camera_ttl_minutes` when the report type is `mobile_camera` and
`police_check_ttl_minutes` otherwise; the call returns `accepted = true`
with the new record's id.  (`newReport` fixes `confirmations = 1` and
`expires_at = now + ttl * 60` seconds.) -/
theorem C3_new_report_persisted (dist : Dist) (s : AppSettings) (now : ℚ)
    (newId : String) (db : List CommunityReport) (report : CommunityReportCreate)
    (h1 : db.find? (rateLimitFilter report s now) = none)
    (h2 : ((db.filter (dupFilter report s now)).take 100).find?
      (withinDupRadius dist report s) = none) :
    create_report dist s now newId db report =
      (⟨true, newReportMessage, some newId⟩,
        db ++ [newReport report newId now
          (if report.report_type == "mobile_camera" then s.mobile_camera_ttl_minutes
           else s.police_check_ttl_minutes)]) :=
  create_report_inserted dist s now newId db report h1 h2

/-- Witness for C3: on an empty database a mobile-camera report is inserted
with confirmations 1 and expiry `0 + 75 * 60` seconds (75 minutes, the
default mobile-camera TTL), and the call succeeds with the new id. -/
theorem C3_new_report_persisted_witness :
    create_report (constDist 0) {} 0 ("n") [] rlPayload =
      (⟨true, newReportMessage, some ("n")⟩,
        [⟨("n"), 0, 0, ("mobile_camera"), ("u"), 1, 0, 4500, true⟩]) := by
  have h := C3_new_report_persisted (constDist 0) {} 0 ("n") [] rlPayload rfl rfl
  rw [h]
  norm_num [rlPayload, newReport]

/-- C5 counterexample: with the default 5-minute limit, a prior report at
time 0 and a second call at exactly `now = 300` s has elapsed time
`rate_limit_minutes` — inside the claim's closed interval
`[0, rate_limit_minutes]` — yet the reported wait time is 0, violating the
claimed lower bound of 1 (the call is still rejected). -/
theorem C5_counterexample :
    [rlPrior].find? (rateLimitFilter rlPayload {} 300) = some rlPrior ∧
    (300 : ℚ) - rlPrior.created_at = 5 * 60 ∧
    create_report (constDist 0) {} 300 ("n") [rlPrior] rlPayload =
      (⟨false, waitMessage 0 ("mobile_camera"), none⟩, [rlPrior]) ∧
    ¬ (1 : ℤ) ≤ 0 := by
  have hf : [rlPrior].find? (rateLimitFilter rlPayload {} 300) = some rlPrior := by
    norm_num [rateLimitFilter, rlPrior, rlPayload, List.find?_cons]
  refine ⟨hf, by norm_num [rlPrior], ?_, by norm_num⟩
  have h := create_report_rate_limited (constDist 0) {} 300 ("n") [rlPrior] rlPayload rlPrior hf
  rw [h]
  have ht : pyTrunc ((5 : ℚ)) = 5 := by
    rw [pyTrunc_of_nonneg (by norm_num)]; norm_num
  norm_num [rlPrior, rlPayload, ht]

/-- C5 amended: for elapsed time in the half-open interval
`[0, rate_limit_minutes)` (measured from the prior report the rate-limit
lookup finds), the second call returns `accepted = false` with wait time at
least 1 and at most `rate_limit_minutes`; at elapsed time exactly
`rate_limit_minutes` the call is still rejected but the wait time is 0. -/
theorem C5_wait_time_bounds (dist : Dist) (s : AppSettings) (now : ℚ)
    (newId : String) (db : List CommunityReport) (report : CommunityReportCreate)
    (recent : CommunityReport)
    (h : db.find? (rateLimitFilter report s now) = some recent)
    (h0 : 0 ≤ now - recent.created_at)
    (hlt : now - recent.created_at < (s.rate_limit_minutes : ℚ) * 60) :
    ∃ w : ℤ, create_report dist s now newId db report =
        (⟨false, waitMessage w report.report_type, none⟩, db) ∧
      1 ≤ w ∧ w ≤ s.rate_limit_minutes := by
  refine ⟨s.rate_limit_minutes - pyTrunc ((now - recent.created_at) / 60),
    create_report_rate_limited dist s now newId db report recent h, ?_, ?_⟩
  · rw [pyTrunc_of_nonneg (by positivity)]
    have hfl : ⌊(now - recent.created_at) / 60⌋ < s.rate_limit_minutes := by
      rw [Int.floor_lt]
      rw [div_lt_iff₀ (by norm_num : (0:ℚ) < 60)]
      linarith
    omega
  · rw [pyTrunc_of_nonneg (by positivity)]
    have hfl : 0 ≤ ⌊(now - recent.created_at) / 60⌋ :=
      Int.floor_nonneg.mpr (by positivity)
    omega

/-- Witness for C5 amended: prior report at time 0, second call at 100 s
(elapsed 100 s, inside `[0, 300)`): rejected with some wait in `[1, 5]`. -/
theorem C5_wait_time_bounds_witness :
    ∃ w : ℤ, create_report (constDist 0) {} 100 ("n") [rlPrior] rlPayload =
        (⟨false, waitMessage w rlPayload.report_type, none⟩, [rlPrior]) ∧
      1 ≤ w ∧ w ≤ ({} : AppSettings).rate_limit_minutes :=
  C5_wait_time_bounds (constDist 0) {} 100 ("n") [rlPrior] rlPayload rlPrior
    (by norm_num [rateLimitFilter, rlPrior, rlPayload, List.find?_cons])
    (by norm_num [rlPrior]) (by norm_num [rlPrior])

/-- C4 counterexample: a payload with latitude and longitude 999 (far out
of range) and report type `banana` (unknown) is not rejected: on an empty
store the call reaches the persistence layer, inserts a record verbatim
(with the `police_check` TTL, `0 + 52 * 60 = 3120` s), and returns
success — contradicting the claim that such payloads are rejected as a
ValidationError before any persistence access with nothing inserted. -/
theorem C4_counterexample :
    ¬ badPayload.latitude ≤ 90 ∧ ¬ badPayload.longitude ≤ 180 ∧
    badPayload.report_type ≠ ("mobile_camera") ∧
    badPayload.report_type ≠ ("police_check") ∧
    create_report (constDist 0) {} 0 ("new-id") [] badPayload =
      (⟨true, newReportMessage, some ("new-id")⟩,
        [⟨("new-id"), 999, 999, ("banana"), ("u"), 1, 0, 3120, true⟩]) := by
  refine ⟨by norm_num [badPayload], by norm_num [badPayload],
    by decide, by decide, ?_⟩
  have h := create_report_inserted (constDist 0) {} 0 ("new-id") [] badPayload rfl rfl
  rw [h]
  norm_num [badPayload, newReport]
  decide

/-- C4 amended: the pydantic request model validates types only; coordinate
ranges and report-type membership are never checked.  A payload with an
out-of-range coordinate or an unknown report type is processed by the same
pipeline as any other: when it is neither rate-limited nor duplicate-merged
the record is persisted verbatim and the call succeeds (an unknown report
type falls into the `else` branch and receives the `police_check` TTL). -/
theorem C4_no_input_validation (dist : Dist) (s : AppSettings) (now : ℚ)
    (newId : String) (db : List CommunityReport) (report : CommunityReportCreate)
    (hbad : ¬ (-90 ≤ report.latitude ∧ report.latitude ≤ 90) ∨
      ¬ (-180 ≤ report.longitude ∧ report.longitude ≤ 180) ∨
      (report.report_type ≠ "mobile_camera" ∧ report.report_type ≠ "police_check"))
    (h1 : db.find? (rateLimitFilter report s now) = none)
    (h2 : ((db.filter (dupFilter report s now)).take 100).find?
      (withinDupRadius dist report s) = none) :
    create_report dist s now newId db report =
      (⟨true, newReportMessage, some newId⟩,
        db ++ [newReport report newId now
          (if report.report_type == "mobile_camera" then s.mobile_camera_ttl_minutes
           else s.police_check_ttl_minutes)]) :=
  create_report_inserted dist s now newId db report h1 h2

/-- Witness for C4 amended: the malformed payload of the counterexample
satisfies the hypotheses on an empty store. -/
theorem C4_no_input_validation_witness :
    create_report (constDist 0) {} 0 ("new-id") [] badPayload =
      (⟨true, newReportMessage, some ("new-id")⟩,
        [] ++ [newReport badPayload ("new-id") 0
          (if badPayload.report_type == "mobile_camera"
           then ({} : AppSettings).mobile_camera_ttl_minutes
           else ({} : AppSettings).police_check_ttl_minutes)]) :=
  C4_no_input_validation (constDist 0) {} 0 ("new-id") [] badPayload
    (Or.inl (by norm_num [badPayload])) rfl rfl

/-- C1 counterexample: the duplicate scan reads only the first 100
candidates (`to_list(100)`).  With 100 far-away candidates enumerated ahead
of a within-radius one, the claim's premise holds — the submitter is not
rate-limited and an active, non-expired, in-window report of the same type
lies within `duplicate_radius_meters` (here at distance 0 ≤ 200) — yet the
call does not merge: it inserts a 102nd record and answers with the
new-report message, and `nearRep`'s confirmation count is not
incremented. -/
theorem C1_counterexample :
    capDb.find? (rateLimitFilter dupPayload {} 0) = none ∧
    nearRep ∈ capDb ∧
    dupFilter dupPayload {} 0 nearRep = true ∧
    withinDupRadius latDist dupPayload {} nearRep = true ∧
    create_report latDist {} 0 ("n") capDb dupPayload =
      (⟨true, newReportMessage, some ("n")⟩, capDb ++ [newReport dupPayload ("n") 0 52]) := by
  have hrl : capDb.find? (rateLimitFilter dupPayload {} 0) = none := by
    simp only [capDb, List.find?_append, List.find?_replicate, List.find?_cons,
      List.find?_nil]
    norm_num [rateLimitFilter, farRep, nearRep, dupPayload]
    decide
  have hfil : capDb.filter (dupFilter dupPayload {} 0) = capDb := by
    simp only [capDb, List.filter_append, List.filter_replicate]
    norm_num [dupFilter, farRep, nearRep, dupPayload, List.filter]
  have htake : (capDb.filter (dupFilter dupPayload {} 0)).take 100 =
      List.replicate 100 farRep := by
    rw [hfil, capDb, List.take_left' (by simp)]
  have hfind : (List.replicate 100 farRep).find?
      (withinDupRadius latDist dupPayload {}) = none := by
    rw [List.find?_replicate]
    norm_num [withinDupRadius, latDist, farRep, dupPayload]
  refine ⟨hrl, by simp [capDb], ?_, ?_, ?_⟩
  · norm_num [dupFilter, nearRep, dupPayload]
  · norm_num [withinDupRadius, latDist, nearRep, dupPayload]
  · have h := create_report_inserted latDist {} 0 ("n") capDb dupPayload hrl
      (by rw [htake]; exact hfind)
    rw [h, show (if dupPayload.report_type == "mobile_camera"
        then ({} : AppSettings).mobile_camera_ttl_minutes
        else ({} : AppSettings).police_check_ttl_minutes) = (52 : ℤ) from by decide]

/-- C1 amended: when the submitter is not rate-limited and some report
*among the first 100 candidates the persistence collaborator enumerates*
(same type, active, non-expired, created within the window) lies within
`duplicate_radius_meters`, the call returns `accepted = true` with the
first such report's id, its confirmation count is incremented by exactly 1
(under unique ids), the message reports prior confirmations + 1, and no new
record is inserted (the store keeps its length).  A within-radius report
beyond the first 100 candidates does not trigger a merge (see C10). -/
theorem C1_duplicate_merge (dist : Dist) (s : AppSettings) (now : ℚ)
    (newId : String) (db : List CommunityReport) (report : CommunityReportCreate)
    (existing : CommunityReport)
    (hid : (db.map CommunityReport.id).Nodup)
    (h1 : db.find? (rateLimitFilter report s now) = none)
    (h2 : ((db.filter (dupFilter report s now)).take 100).find?
      (withinDupRadius dist report s) = some existing) :
    create_report dist s now newId db report =
      (⟨true, confirmMessage (existing.confirmations + 1), some existing.id⟩,
        db.map (fun r =>
          if r.id = existing.id
          then { r with confirmations := r.confirmations + 1 } else r)) ∧
    (create_report dist s now newId db report).2.length = db.length := by
  have h := create_report_merged dist s now newId db report existing h1 h2
  rw [h, incConfirmations_eq_map existing.id db hid]
  exact ⟨rfl, List.length_map db _⟩

/-- Witness for C1 amended: a single stored nearby report with 3
confirmations; the merging call answers with its id and message count 4,
and the store still holds exactly one record, now with 4 confirmations. -/
theorem C1_duplicate_merge_witness :
    create_report latDist {} 0 ("n") [mergePrior] dupPayload =
      (⟨true, confirmMessage 4, some ("m")⟩,
        [⟨("m"), 0, 0, ("police_check"), ("v"), 4, 0, 100, true⟩]) ∧
    (create_report latDist {} 0 ("n") [mergePrior] dupPayload).2.length = 1 := by
  have h := C1_duplicate_merge latDist {} 0 ("n") [mergePrior] dupPayload mergePrior
    (by simp [mergePrior])
    (by norm_num [rateLimitFilter, mergePrior, dupPayload, List.find?_cons]; decide)
    (by norm_num [dupFilter, withinDupRadius, latDist, mergePrior, dupPayload,
      List.filter, List.find?_cons])
  refine ⟨?_, h.2⟩
  rw [h.1]
  norm_num [mergePrior]

/-- C9: a merge leaves every field of every stored record other than the
matched record's `confirmations` unchanged: the store becomes the pointwise
map bumping only the matched id, and the projection of every record to all
fields except `confirmations` — in particular `expires_at` — is exactly
what it was before; no record is added or removed. -/
theorem C9_merge_frame (dist : Dist) (s : AppSettings) (now : ℚ)
    (newId : String) (db : List CommunityReport) (report : CommunityReportCreate)
    (existing : CommunityReport)
    (hid : (db.map CommunityReport.id).Nodup)
    (h1 : db.find? (rateLimitFilter report s now) = none)
    (h2 : ((db.filter (dupFilter report s now)).take 100).find?
      (withinDupRadius dist report s) = some existing) :
    (create_report dist s now newId db report).2 =
      db.map (fun r =>
        if r.id = existing.id
        then { r with confirmations := r.confirmations + 1 } else r) ∧
    (create_report dist s now newId db report).2.map (fun r =>
        (r.id, r.latitude, r.longitude, r.report_type, r.user_id,
          r.created_at, r.expires_at, r.is_active)) =
      db.map (fun r =>
        (r.id, r.latitude, r.longitude, r.report_type, r.user_id,
          r.created_at, r.expires_at, r.is_active)) := by
  have h := create_report_merged dist s now newId db report existing h1 h2
  have hmap : (create_report dist s now newId db report).2 =
      db.map (fun r =>
        if r.id = existing.id
        then { r with confirmations := r.confirmations + 1 } else r) := by
    rw [h, incConfirmations_eq_map existing.id db hid]
  refine ⟨hmap, ?_⟩
  rw [hmap, List.map_map]
  refine List.map_congr_left ?_
  intro r _
  by_cases hr : r.id = existing.id
  · simp [hr]
  · simp [hr]

/-- Witness for C9: merging into the single stored report keeps its id,
coordinates, type, submitter, timestamps and active flag — only
`confirmations` moves from 3 to 4. -/
theorem C9_merge_frame_witness :
    (create_report latDist {} 0 ("n") [mergePrior] dupPayload).2.map (fun r =>
        (r.id, r.latitude, r.longitude, r.report_type, r.user_id,
          r.created_at, r.expires_at, r.is_active)) =
      [(("m"), (0:ℚ), (0:ℚ), ("police_check"), ("v"), (0:ℚ), (100:ℚ), true)] := by
  have h := C9_merge_frame latDist {} 0 ("n") [mergePrior] dupPayload mergePrior
    (by simp [mergePrior])
    (by norm_num [rateLimitFilter, mergePrior, dupPayload, List.find?_cons]; decide)
    (by norm_num [dupFilter, withinDupRadius, latDist, mergePrior, dupPayload,
      List.filter, List.find?_cons])
  rw [h.2]
  norm_num [mergePrior]

/-- C10: the duplicate scan examines at most the first 100 candidates the
persistence collaborator enumerates.  When the submitter is not
rate-limited, none of the first 100 candidates is within radius, and some
candidate (necessarily beyond the first 100) is within radius, no merge
occurs: a new record is created and the call answers with the new-report
message and the fresh id. -/
theorem C10_candidate_cap (dist : Dist) (s : AppSettings) (now : ℚ)
    (newId : String) (db : List CommunityReport) (report : CommunityReportCreate)
    (h1 : db.find? (rateLimitFilter report s now) = none)
    (h2 : ((db.filter (dupFilter report s now)).take 100).find?
      (withinDupRadius dist report s) = none)
    (h3 : ∃ r ∈ db.filter (dupFilter report s now),
      withinDupRadius dist report s r = true) :
    create_report dist s now newId db report =
      (⟨true, newReportMessage, some newId⟩,
        db ++ [newReport report newId now
          (if report.report_type == "mobile_camera" then s.mobile_camera_ttl_minutes
           else s.police_check_ttl_minutes)]) :=
  create_report_inserted dist s now newId db report h1 h2

/-- Witness for C10: the 101-record store of C1's counterexample — the
within-radius candidate is the 101st — yields a fresh insertion. -/
theorem C10_candidate_cap_witness :
    create_report latDist {} 0 ("n") capDb dupPayload =
      (⟨true, newReportMessage, some ("n")⟩,
        capDb ++ [newReport dupPayload ("n") 0
          (if dupPayload.report_type == "mobile_camera"
           then ({} : AppSettings).mobile_camera_ttl_minutes
           else ({} : AppSettings).police_check_ttl_minutes)]) := by
  have hfil : capDb.filter (dupFilter dupPayload {} 0) = capDb := by
    simp only [capDb, List.filter_append, List.filter_replicate]
    norm_num [dupFilter, farRep, nearRep, dupPayload, List.filter]
  refine C10_candidate_cap latDist {} 0 ("n") capDb dupPayload ?_ ?_ ?_
  · simp only [capDb, List.find?_append, List.find?_replicate, List.find?_cons,
      List.find?_nil]
    norm_num [rateLimitFilter, farRep, nearRep, dupPayload]
    decide
  · rw [hfil, capDb, List.take_left' (by simp), List.find?_replicate]
    norm_num [withinDupRadius, latDist, farRep, dupPayload]
  · refine ⟨nearRep, ?_, ?_⟩
    · rw [hfil]; simp [capDb]
    · norm_num [withinDupRadius, latDist, nearRep, dupPayload]

/-- C6 counterexample: two cameras at the same coordinate, both at distance
100.5 m from the center.  The query returns both annotated with 100 —
`round(100.5)` is 100, not the exact distance 100.5, and the resulting list
`[100, 100]` is not strictly ascending. -/
theorem C6_counterexample :
    get_nearby_cameras (constDist (201/2)) wideBox 0 0 1 [camA, camB] =
      [⟨camA, 100⟩, ⟨camB, 100⟩] ∧
    ¬ List.Pairwise (fun a b : CameraResult => a.distance_meters < b.distance_meters)
      [(⟨camA, 100⟩ : CameraResult), ⟨camB, 100⟩] ∧
    (100 : ℚ) ≠ constDist (201/2) 0 0 camA.latitude camA.longitude := by
  refine ⟨?_, by decide, by norm_num [constDist]⟩
  have h1 : pyRound ((201 : ℚ)/2) = 100 := by
    rw [pyRound_half_even (by norm_num) (by norm_num)]; norm_num
  norm_num [get_nearby_cameras, inQueryBox, camA, camB, wideBox, constDist,
    List.filter, List.filterMap_cons, h1]
  rw [List.mergeSort_of_sorted (by decide)]

/-- C6 amended: for both nearby queries, every returned entity's exact
distance to the center is at most `radius_km * 1000` meters, every entity
is annotated with `round(distance)` (Python banker's rounding of the exact
distance, not the exact value itself), and the list is sorted in
nondecreasing (not strictly ascending — ties are possible) order of that
annotated distance. -/
theorem C6_query_ordering (dist : Dist) (bbox : QueryBox) (lat lon radius_km now : ℚ)
    (cams : List SpeedCamera) (reps : List CommunityReport) :
    (List.Pairwise (fun a b : CameraResult => a.distance_meters ≤ b.distance_meters)
        (get_nearby_cameras dist bbox lat lon radius_km cams) ∧
      ∀ x ∈ get_nearby_cameras dist bbox lat lon radius_km cams,
        dist lat lon x.camera.latitude x.camera.longitude ≤ radius_km * 1000 ∧
        x.distance_meters = pyRound (dist lat lon x.camera.latitude x.camera.longitude)) ∧
    (List.Pairwise (fun a b : ReportResult => a.distance_meters ≤ b.distance_meters)
        (get_nearby_reports dist bbox lat lon radius_km now reps) ∧
      ∀ x ∈ get_nearby_reports dist bbox lat lon radius_km now reps,
        dist lat lon x.report.latitude x.report.longitude ≤ radius_km * 1000 ∧
        x.distance_meters = pyRound (dist lat lon x.report.latitude x.report.longitude)) := by
  constructor
  · constructor
    · exact pairwise_mergeSort_le CameraResult.distance_meters _
    · intro x hx
      unfold get_nearby_cameras at hx
      rw [List.mem_mergeSort] at hx
      obtain ⟨c, _, hfc⟩ := List.mem_filterMap.mp hx
      by_cases hd : dist lat lon c.latitude c.longitude ≤ radius_km * 1000
      · simp only [if_pos hd, Option.some.injEq] at hfc
        rw [← hfc]
        exact ⟨hd, rfl⟩
      · simp only [if_neg hd] at hfc
        exact Option.noConfusion hfc
  · constructor
    · exact pairwise_mergeSort_le ReportResult.distance_meters _
    · intro x hx
      unfold get_nearby_reports at hx
      rw [List.mem_mergeSort] at hx
      obtain ⟨r, _, hfr⟩ := List.mem_filterMap.mp hx
      by_cases hd : dist lat lon r.latitude r.longitude ≤ radius_km * 1000
      · simp only [if_pos hd, Option.some.injEq] at hfr
        rw [← hfr]
        exact ⟨hd, rfl⟩
      · simp only [if_neg hd] at hfr
        exact Option.noConfusion hfr

/-- Witness for C6 amended: a single camera at distance 0 is returned
within the radius and annotated with `round(0) = 0`. -/
theorem C6_query_ordering_witness :
    constDist 0 0 0 camA.latitude camA.longitude ≤ (1 : ℚ) * 1000 ∧
    (⟨camA, 0⟩ : CameraResult).distance_meters =
      pyRound (constDist 0 0 0 camA.latitude camA.longitude) := by
  have h0 : pyRound ((0 : ℚ)) = 0 := by
    rw [pyRound_eq_floor (by norm_num)]; norm_num
  have hres : get_nearby_cameras (constDist 0) wideBox 0 0 1 [camA] = [⟨camA, 0⟩] := by
    norm_num [get_nearby_cameras, inQueryBox, camA, wideBox, constDist,
      List.filter, List.filterMap_cons, h0]
  exact (C6_query_ordering (constDist 0) wideBox 0 0 1 0 [camA] []).1.2 ⟨camA, 0⟩
    (by rw [hres]; exact List.mem_singleton_self _)

/-- C7: the nearby-reports query never returns a report whose `expires_at`
is at or before the current time, even when that report is still stored and
active: the only expiry mechanism is the read-time filter
`expires_at > now` (there is no deletion — the query does not modify the
store, which the pure embedding makes immediate). -/
theorem C7_expired_never_returned (dist : Dist) (bbox : QueryBox)
    (lat lon radius_km now : ℚ) (db : List CommunityReport) :
    ∀ x ∈ get_nearby_reports dist bbox lat lon radius_km now db,
      now < x.report.expires_at := by
  intro x hx
  unfold get_nearby_reports at hx
  rw [List.mem_mergeSort] at hx
  obtain ⟨r, hr, hfr⟩ := List.mem_filterMap.mp hx
  have hrf := List.mem_filter.mp (List.take_subset 500 _ hr)
  have hexp : now < r.expires_at := by
    have := hrf.2
    simp only [Bool.and_eq_true, decide_eq_true_eq] at this
    exact this.2
  by_cases hd : dist lat lon r.latitude r.longitude ≤ radius_km * 1000
  · simp only [if_pos hd, Option.some.injEq] at hfr
    rw [← hfr]
    exact hexp
  · simp only [if_neg hd] at hfr
    exact Option.noConfusion hfr

/-- Witness for C7: a store holding an expired-but-active report (expired
at `now = 200`) and a fresh one; the fresh one is returned and the theorem
instantiates to `200 < 500` for it. -/
theorem C7_expired_never_returned_witness : (200 : ℚ) < freshRep.expires_at := by
  have h0 : pyRound ((0 : ℚ)) = 0 := by
    rw [pyRound_eq_floor (by norm_num)]; norm_num
  have h5 : pyRound ((5 : ℚ)) = 5 := by
    rw [pyRound_eq_floor (by norm_num)]; norm_num
  have hres : get_nearby_reports (constDist 0) wideBox 0 0 1 200
      [expiredRep, freshRep] = [⟨freshRep, 0, 5⟩] := by
    norm_num [get_nearby_reports, inQueryBox, expiredRep, freshRep, wideBox,
      constDist, List.filter, List.filterMap_cons, h0, h5]
  exact C7_expired_never_returned (constDist 0) wideBox 0 0 1 200
    [expiredRep, freshRep] ⟨freshRep, 0, 5⟩
    (by rw [hres]; exact List.mem_singleton_self _)

/- ## Geo math lemmas for C8 -/

/-- `haversine_distance` with its intermediate bindings expanded. -/
theorem haversine_unfold (lat1 lon1 lat2 lon2 : ℝ) :
    haversine_distance lat1 lon1 lat2 lon2 =
      6371000 * (2 * atan2
        (Real.sqrt (Real.sin (radians (lat2 - lat1) / 2) ^ 2 +
          Real.cos (radians lat1) * Real.cos (radians lat2) *
            Real.sin (radians (lon2 - lon1) / 2) ^ 2))
        (Real.sqrt (1 - (Real.sin (radians (lat2 - lat1) / 2) ^ 2 +
          Real.cos (radians lat1) * Real.cos (radians lat2) *
            Real.sin (radians (lon2 - lon1) / 2) ^ 2)))) := rfl

/-- Product formula: `sin (x+y) * sin (x-y) = sin² x − sin² y`. -/
theorem sin_mul_sin_sub (x y : ℝ) :
    Real.sin (x + y) * Real.sin (x - y) = Real.sin x ^ 2 - Real.sin y ^ 2 := by
  rw [Real.sin_add, Real.sin_sub]
  nlinarith [Real.sin_sq_add_cos_sq x, Real.sin_sq_add_cos_sq y]

/-- The haversine quantity `a` with `sin²(Δλ/2)` at its maximum collapses:
`sin² v + cos (u−v) · cos (u+v) = cos² u`. -/
theorem hav_cos_identity (u v : ℝ) :
    Real.sin v ^ 2 + Real.cos (u - v) * Real.cos (u + v) = Real.cos u ^ 2 := by
  rw [Real.cos_sub, Real.cos_add]
  nlinarith [Real.sin_sq_add_cos_sq u, Real.sin_sq_add_cos_sq v]

/-- For `a ∈ [0,1]`, the `atan2` step of the haversine formula is an
arcsine: `atan2 (√a) (√(1−a)) = arcsin (√a)`. -/
theorem atan2_sqrt_eq_arcsin {a : ℝ} (h0 : 0 ≤ a) (h1 : a ≤ 1) :
    atan2 (Real.sqrt a) (Real.sqrt (1 - a)) = Real.arcsin (Real.sqrt a) := by
  rcases lt_or_eq_of_le h1 with hlt | heq
  · have ht : 0 < Real.sqrt (1 - a) := Real.sqrt_pos.mpr (by linarith)
    rw [atan2, if_pos ht]
    have hmem : Real.sqrt a ∈ Set.Ioo (-1 : ℝ) 1 := by
      constructor
      · linarith [Real.sqrt_nonneg a]
      · rw [show (1:ℝ) = Real.sqrt 1 from (Real.sqrt_one).symm]
        exact Real.sqrt_lt_sqrt h0 hlt
    rw [Real.arcsin_eq_arctan hmem, Real.sq_sqrt h0]
  · subst heq
    rw [show (1:ℝ) - 1 = 0 from by norm_num, Real.sqrt_zero, Real.sqrt_one]
    norm_num [atan2, Real.arcsin_one]

/- ## Claim C8 -/

/-- C8 counterexample: both coordinates are in range, the great-circle
distance from (89.3, 0) to (89.7, 180) — two points facing each other
across the pole — is `6371000 · π/180 ≈ 111.2 km`, at most the 150 km
radius, yet the point's longitude 180 lies outside
`boundingBox((89.3, 0), 150)`, whose longitude half-width
`150/(111·cos 89.3°) ≈ 103.6°` is too small: the box does not contain
every point within the radius. -/
theorem C8_counterexample :
    ((-90 : ℝ) ≤ 89.3 ∧ (89.3 : ℝ) ≤ 90 ∧ (-180 : ℝ) ≤ 0 ∧ (0 : ℝ) ≤ 180) ∧
    ((-90 : ℝ) ≤ 89.7 ∧ (89.7 : ℝ) ≤ 90 ∧ (-180 : ℝ) ≤ 180 ∧ (180 : ℝ) ≤ 180) ∧
    haversine_distance 89.3 0 89.7 180 ≤ 150 * 1000 ∧
    ¬ inGeoBox (get_bounding_box 89.3 0 150) 89.7 180 := by
  have hπ0 := Real.pi_pos
  refine ⟨by norm_num, by norm_num, ?_, ?_⟩
  · have ha : Real.sin (radians ((89.7 : ℝ) - 89.3) / 2) ^ 2 +
        Real.cos (radians 89.3) * Real.cos (radians 89.7) *
          Real.sin (radians ((180 : ℝ) - 0) / 2) ^ 2 =
        Real.sin (Real.pi/360) ^ 2 := by
      rw [show radians ((89.7 : ℝ) - 89.3) / 2 = 2 * (Real.pi/1800) from by
            unfold radians; ring,
          show radians (89.3 : ℝ) = Real.pi/2 - 7 * (Real.pi/1800) from by
            unfold radians; ring,
          show radians (89.7 : ℝ) = Real.pi/2 - 3 * (Real.pi/1800) from by
            unfold radians; ring,
          show radians ((180 : ℝ) - 0) / 2 = Real.pi/2 from by unfold radians; ring,
          Real.sin_pi_div_two, Real.cos_pi_div_two_sub, Real.cos_pi_div_two_sub,
          show (7 : ℝ) * (Real.pi/1800) = 5 * (Real.pi/1800) + 2 * (Real.pi/1800) from by
            ring,
          show (3 : ℝ) * (Real.pi/1800) = 5 * (Real.pi/1800) - 2 * (Real.pi/1800) from by
            ring,
          sin_mul_sin_sub,
          show Real.pi/360 = 5 * (Real.pi/1800) from by ring]
      ring
    rw [haversine_unfold, ha,
      atan2_sqrt_eq_arcsin (sq_nonneg _) (Real.sin_sq_le_one _)]
    have hsge : 0 ≤ Real.sin (Real.pi/360) :=
      Real.sin_nonneg_of_nonneg_of_le_pi (by positivity) (by linarith)
    rw [Real.sqrt_sq hsge, Real.arcsin_sin (by linarith) (by linarith)]
    nlinarith [Real.pi_le_four]
  · intro hbox
    obtain ⟨-, -, -, hlon⟩ := hbox
    unfold get_bounding_box at hlon
    dsimp only at hlon
    rw [show radians (89.3 : ℝ) = Real.pi/2 - 7 * (Real.pi/1800) from by
          unfold radians; ring,
        Real.cos_pi_div_two_sub] at hlon
    have hx0 : (0 : ℝ) < 7 * (Real.pi/1800) := by positivity
    have hx1 : 7 * (Real.pi/1800) ≤ 1 := by nlinarith [Real.pi_lt_d2]
    have hcube := Real.sin_gt_sub_cube hx0 hx1
    have hxl : (0.0122 : ℝ) ≤ 7 * (Real.pi/1800) := by nlinarith [Real.pi_gt_d2]
    have hxu : 7 * (Real.pi/1800) ≤ (0.01225 : ℝ) := by nlinarith [Real.pi_lt_d2]
    have hc3 : (7 * (Real.pi/1800)) ^ 3 ≤ (0.01225 : ℝ) ^ 3 :=
      pow_le_pow_left₀ (le_of_lt hx0) hxu 3
    have hc3' : ((0.01225 : ℝ)) ^ 3 ≤ 0.0000019 := by norm_num
    have hsin : (150 : ℝ)/19980 < Real.sin (7 * (Real.pi/1800)) := by nlinarith
    have hmax : (150 : ℝ) / (111.0 * Real.sin (7 * (Real.pi/1800))) < 180 := by
      rw [div_lt_iff₀ (by nlinarith)]
      nlinarith
    linarith

set_option maxHeartbeats 1600000 in
/-- C8 amended: the latitude half of the containment always holds — every
point within `r` km of the center has latitude within `r/111` degrees of
the center's latitude — but the longitude half is false in general (the
counterexample sits at latitude 89.3°), so the bounding box is only a
heuristic pre-filter and must be paired with the exact distance check. -/
theorem C8_latitude_containment (lat1 lon1 lat2 lon2 r : ℝ)
    (h1l : -90 ≤ lat1) (h1u : lat1 ≤ 90) (h2l : -90 ≤ lat2) (h2u : lat2 ≤ 90)
    (hd : haversine_distance lat1 lon1 lat2 lon2 ≤ r * 1000) :
    (get_bounding_box lat1 lon1 r).min_lat ≤ lat2 ∧
      lat2 ≤ (get_bounding_box lat1 lon1 r).max_lat := by
  have hπ := Real.pi_gt_d2
  have hπ0 := Real.pi_pos
  have hφ1l : -(Real.pi/2) ≤ radians lat1 := by unfold radians; nlinarith
  have hφ1u : radians lat1 ≤ Real.pi/2 := by unfold radians; nlinarith
  have hφ2l : -(Real.pi/2) ≤ radians lat2 := by unfold radians; nlinarith
  have hφ2u : radians lat2 ≤ Real.pi/2 := by unfold radians; nlinarith
  have hc1 : 0 ≤ Real.cos (radians lat1) :=
    Real.cos_nonneg_of_mem_Icc ⟨hφ1l, hφ1u⟩
  have hc2 : 0 ≤ Real.cos (radians lat2) :=
    Real.cos_nonneg_of_mem_Icc ⟨hφ2l, hφ2u⟩
  rw [haversine_unfold] at hd
  set A := Real.sin (radians (lat2 - lat1) / 2) ^ 2 +
    Real.cos (radians lat1) * Real.cos (radians lat2) *
      Real.sin (radians (lon2 - lon1) / 2) ^ 2 with hA
  have hA0 : 0 ≤ A := by
    rw [hA]
    exact add_nonneg (sq_nonneg _)
      (mul_nonneg (mul_nonneg hc1 hc2) (sq_nonneg _))
  have hA1 : A ≤ 1 := by
    have hid : Real.sin (radians (lat2 - lat1) / 2) ^ 2 +
        Real.cos (radians lat1) * Real.cos (radians lat2) =
        Real.cos ((radians lat1 + radians lat2)/2) ^ 2 := by
      have h := hav_cos_identity ((radians lat1 + radians lat2)/2)
        ((radians lat2 - radians lat1)/2)
      rw [show (radians lat1 + radians lat2)/2 - (radians lat2 - radians lat1)/2 =
            radians lat1 from by ring,
          show (radians lat1 + radians lat2)/2 + (radians lat2 - radians lat1)/2 =
            radians lat2 from by ring] at h
      rw [show radians (lat2 - lat1) / 2 = (radians lat2 - radians lat1)/2 from by
            unfold radians; ring]
      exact h
    have hs1 : Real.sin (radians (lon2 - lon1) / 2) ^ 2 ≤ 1 :=
      Real.sin_sq_le_one _
    have hcos1 : Real.cos ((radians lat1 + radians lat2)/2) ^ 2 ≤ 1 :=
      Real.cos_sq_le_one _
    rw [hA]
    nlinarith [mul_nonneg hc1 hc2]
  rw [atan2_sqrt_eq_arcsin hA0 hA1] at hd
  have hvb : |radians (lat2 - lat1) / 2| ≤ Real.pi/2 := by
    rw [abs_le]
    constructor <;> · unfold radians; nlinarith
  have hsv : Real.sin |radians (lat2 - lat1) / 2| ≤ Real.sqrt A := by
    have h1 : Real.sin |radians (lat2 - lat1) / 2| = |Real.sin (radians (lat2 - lat1) / 2)| := by
      rcases abs_cases (radians (lat2 - lat1) / 2) with ⟨he, h0⟩ | ⟨he, h0⟩
      · rw [he, abs_of_nonneg (Real.sin_nonneg_of_nonneg_of_le_pi h0 (by linarith [hvb, abs_nonneg (radians (lat2 - lat1) / 2), (abs_le.mp hvb).2, he]))]
      · rw [he, Real.sin_neg,
          abs_of_nonpos (Real.sin_nonpos_of_nonnpos_of_neg_pi_le (le_of_lt h0)
            (by linarith [(abs_le.mp hvb).1, he]))]
    rw [h1, ← Real.sqrt_sq_eq_abs]
    refine Real.sqrt_le_sqrt ?_
    rw [hA]
    have h2 := mul_nonneg (mul_nonneg hc1 hc2)
      (sq_nonneg (Real.sin (radians (lon2 - lon1) / 2)))
    linarith
  have harc : |radians (lat2 - lat1) / 2| ≤ Real.arcsin (Real.sqrt A) := by
    calc |radians (lat2 - lat1) / 2|
        = Real.arcsin (Real.sin |radians (lat2 - lat1) / 2|) :=
          (Real.arcsin_sin (by linarith [abs_nonneg (radians (lat2 - lat1) / 2)]) hvb).symm
      _ ≤ Real.arcsin (Real.sqrt A) := Real.monotone_arcsin hsv
  have harc0 : 0 ≤ Real.arcsin (Real.sqrt A) :=
    Real.arcsin_nonneg.mpr (Real.sqrt_nonneg A)
  have hr0 : 0 ≤ r := by nlinarith
  have hvlat : |radians (lat2 - lat1) / 2| = |lat2 - lat1| * (Real.pi/360) := by
    rw [show radians (lat2 - lat1) / 2 = (lat2 - lat1) * (Real.pi/360) from by
          unfold radians; ring,
        abs_mul, abs_of_pos (by positivity : (0:ℝ) < Real.pi/360)]
  have hfinal : |lat2 - lat1| ≤ r / 111 := by
    have hle : 6371000 * (2 * (|lat2 - lat1| * (Real.pi/360))) ≤ r * 1000 := by
      rw [← hvlat]
      nlinarith
    have habs := abs_nonneg (lat2 - lat1)
    have hmul := mul_le_mul_of_nonneg_left hπ.le habs
    rw [le_div_iff₀ (by norm_num : (0:ℝ) < 111)]
    nlinarith
  obtain ⟨hlo, hhi⟩ := abs_le.mp hfinal
  constructor
  · have hbb : (get_bounding_box lat1 lon1 r).min_lat = lat1 - r / 111.0 := rfl
    rw [hbb]
    linarith
  · have hbb : (get_bounding_box lat1 lon1 r).max_lat = lat1 + r / 111.0 := rfl
    rw [hbb]
    linarith

/-- Witness for C8 amended: the center (0,0) itself, at distance 0 ≤ 1 km,
has its latitude inside the box's latitude band. -/
theorem C8_latitude_containment_witness :
    (get_bounding_box 0 0 1).min_lat ≤ 0 ∧ (0 : ℝ) ≤ (get_bounding_box 0 0 1).max_lat := by
  refine C8_latitude_containment 0 0 0 0 1 (by norm_num) (by norm_num)
    (by norm_num) (by norm_num) ?_
  rw [haversine_unfold]
  norm_num [radians, atan2, Real.sqrt_zero, Real.sqrt_one, Real.arctan_zero]

end DriveSafe
